import Mathlib

/-!
Verification of the lung-cancer-detection-api inference pipeline.

The development shallowly embeds the core pipeline of the repository:

* `app/core/config.py`          — `Settings` and its parsing helpers;
* `app/services/image_processor.py` — `ImageProcessor.validate_image`,
  `extract_image_info`, `calculate_image_stats`, `preprocess_image`,
  `predict`, `process_image`;
* `app/api/v1/endpoints.py`     — the `/predict` handler `predict_image`
  with its exception-to-status-code dispatch.

External library routines that the pipeline calls (Pillow's image
decoding and resampling, numpy's floating-point mean/std, the Keras
model's forward pass) are modelled as explicit function parameters,
bundled in the `Ext` structure; everything the repository itself
computes (validation, control flow, exception dispatch, normalization,
argmax, label mapping) is embedded concretely.

Python `float` arithmetic is modelled with `ℚ` (exact rationals);
machine sizes are `Nat`.
-/

namespace LungAPI

/-! ## Python string primitives

The configuration helpers use Python's `str.split`, `str.strip` and
`int()`; they are embedded here directly over character lists. -/

/-- Helper for `pysplit`: scan the characters, cutting at every
occurrence of the separator. -/
def pysplitAux (sep : Char) : List Char → List Char → List String
  | [], acc => [String.mk acc.reverse]
  | c :: cs, acc =>
    if c = sep then String.mk acc.reverse :: pysplitAux sep cs []
    else pysplitAux sep cs (c :: acc)

/-- Python `s.split(sep)` for a one-character separator: the pieces
between occurrences of `sep` (so `"".split(",") = [""]`). -/
def pysplit (s : String) (sep : Char) : List String :=
  pysplitAux sep s.toList []

/-- Python `s.strip()`: drop whitespace from both ends. -/
def pystrip (s : String) : String :=
  String.mk (((s.toList.dropWhile Char.isWhitespace).reverse.dropWhile
      Char.isWhitespace).reverse)

/-- Interpret a nonempty list of decimal digit characters. -/
def digitsToNat : List Char → Option Nat
  | [] => none
  | ds =>
    if ds.all Char.isDigit then
      some (ds.foldl (fun n c => 10 * n + (c.toNat - 48)) 0)
    else
      none

/-- Python `int(s)` on a stripped string: optional sign followed by
decimal digits, `none` modelling the `ValueError` on anything else
(exotic literal forms such as digit-group underscores are not
modelled; the pipeline only ever parses plain decimal sizes). -/
def pyint? (s : String) : Option Int :=
  match s.toList with
  | '-' :: ds => (digitsToNat ds).map (fun n => -(n : Int))
  | '+' :: ds => (digitsToNat ds).map Int.ofNat
  | ds => (digitsToNat ds).map Int.ofNat

/-- The configurable fields of `Settings` (`app/core/config.py`) that the
pipeline reads.  Defaults mirror the source; other fields (host, port,
CORS, logging, …) are never consulted by the pipeline and are omitted. -/
structure Settings where
  MAX_FILE_SIZE : Nat := 50 * 1024 * 1024
  ALLOWED_IMAGE_TYPES : String := "image/jpeg,image/png,image/tiff,image/bmp"
  MODEL_INPUT_SIZE : String := "224,224"
  CONFIDENCE_THRESHOLD : ℚ := 1 / 2
deriving Repr, DecidableEq

/-- The global `settings = Settings()` instance with every field at its
declared default. -/
def defaultSettings : Settings := {}

/-- `Settings.get_allowed_image_types`: split the configured string on
commas and strip whitespace from every entry. -/
def Settings.get_allowed_image_types (s : Settings) : List String :=
  (pysplit s.ALLOWED_IMAGE_TYPES ',').map pystrip

/-- `Settings.get_model_input_size`: parse `"w,h"` into a pair of
integers, falling back to `(224, 224)` when the string does not split
into exactly two integer components (the source wraps the parse in
`try/except`). -/
def Settings.get_model_input_size (s : Settings) : Int × Int :=
  match pysplit s.MODEL_INPUT_SIZE ',' with
  | [w, h] =>
    match pyint? (pystrip w), pyint? (pystrip h) with
    | some wi, some hi => (wi, hi)
    | _, _ => (224, 224)
  | _ => (224, 224)

/-- `ImageProcessor.validate_image` (`image_processor.py` lines 41-49):
reject an empty or non-allow-listed declared content type, then reject a
byte size strictly greater than `MAX_FILE_SIZE`; accept otherwise. -/
def validate_image (st : Settings) (content_type : String) (file_size : Nat) : Bool :=
  if content_type = "" ∨ content_type ∉ st.get_allowed_image_types then
    false
  else if st.MAX_FILE_SIZE < file_size then
    false
  else
    true

/-! ## Images, tensors and the exception taxonomy -/

/-- A decoded Pillow image handle.  `pixels` is indexed
row (height) × column (width) × band; every sample is a byte value.
`mode = "L"` means a single-band luminance image. -/
structure PILImage where
  mode : String
  width : Nat
  height : Nat
  bands : List String
  format : Option String
  pixels : List (List (List Nat))
deriving Repr, DecidableEq

/-- A two-dimensional grid of byte samples (a single-band image). -/
abbrev Grid := List (List Nat)

/-- A batched floating-point tensor, indexed batch × row × column. -/
abbrev Tensor := List (List (List ℚ))

/-- The Python exception classes that can escape the pipeline, as the
endpoint's `except` clauses distinguish them.  `unidentifiedImageError`
is Pillow's decode failure — a subclass of `OSError`, not of
`ValueError` or `RuntimeError`.  `httpException` is FastAPI's
`HTTPException`, a direct subclass of `Exception`.  `validationError`
is pydantic's, raised when a response model constraint fails.  -/
inductive PyError where
  | valueError (msg : String)
  | runtimeError (msg : String)
  | unidentifiedImageError (msg : String)
  | attributeError (msg : String)
  | indexError (msg : String)
  | validationError (msg : String)
  | httpException (status : Nat) (detail : String)
deriving Repr, DecidableEq

/-- The external collaborators the pipeline calls into, modelled as
explicit functions: Pillow's container decoding (`none` when the bytes
do not parse as a supported image container, in which case the source
call `Image.open` raises `UnidentifiedImageError`), Pillow's `resize`
(the LANCZOS resampler, returning a byte-valued grid of the requested
target size), and numpy's floating-point `mean` and `std` reductions. -/
structure Ext where
  decode : List Nat → Option PILImage
  resize : Grid → Int × Int → Grid
  npMean : List (List (List Nat)) → ℚ
  npStd : List (List (List Nat)) → ℚ

/-- The mutable attributes of the `ImageProcessor` instance: the model
handle (`self.model`, a forward-pass function from the input tensor to
a batch of probability rows) and the `self.model_loaded` flag. -/
structure ImageProcessorState where
  model : Option (Tensor → List (List ℚ))
  model_loaded : Bool

/-- `ImageProcessor.__init__` / `_load_model`: attempt the Keras load
(modelled by its result `load_result`); on success both attributes are
set, on failure `model` stays `None` and `model_loaded` stays `False`. -/
def ImageProcessor.init (load_result : Option (Tensor → List (List ℚ))) :
    ImageProcessorState :=
  { model := load_result, model_loaded := load_result.isSome }

/-! ## Metadata extraction -/

/-- `ImageInfo` (`app/schemas/prediction.py`). -/
structure ImageInfo where
  width : Nat
  height : Nat
  channels : Option Nat
  format : Option String
deriving Repr, DecidableEq

/-- `ImageStats` (`app/schemas/prediction.py`). -/
structure ImageStats where
  mean_intensity : ℚ
  std_intensity : ℚ
  shape : List Nat
  size_bytes : Option Nat
deriving Repr, DecidableEq

/-- `ImageProcessor.extract_image_info`: width and height from
`image.size`, channel count `len(image.getbands()) if image.getbands()
else 0`, format as detected by the decoder. -/
def extract_image_info (image : PILImage) : ImageInfo :=
  { width := image.width
    height := image.height
    channels := some (if image.bands ≠ [] then image.bands.length else 0)
    format := image.format }

/-- `np.array(image)`: the raw pixel array together with its numpy
shape — `(h, w)` for a single-band image, `(h, w, c)` otherwise. -/
structure NpArray where
  data : List (List (List Nat))
  shape : List Nat
deriving Repr, DecidableEq

/-- Build the numpy view of a decoded image (`np.array(image)` in
`process_image`). -/
def np_array (image : PILImage) : NpArray :=
  { data := image.pixels
    shape :=
      if image.mode = "L" then [image.height, image.width]
      else [image.height, image.width, image.bands.length] }

/-- `ImageProcessor.calculate_image_stats`: mean and standard deviation
of the full-resolution pixel array (delegated to numpy, an external
collaborator), its shape, and the original byte size. -/
def calculate_image_stats (ext : Ext) (image_array : NpArray)
    (file_size : Option Nat) : ImageStats :=
  { mean_intensity := ext.npMean image_array.data
    std_intensity := ext.npStd image_array.data
    shape := image_array.shape
    size_bytes := file_size }

/-! ## Preprocessing -/

/-- Pillow's ITU-R 601-2 luminance transform, applied per pixel by
`image.convert('L')`: `L = (19595 R + 38470 G + 7471 B + 2^15) >> 16`
(the fixed-point form Pillow uses; the three coefficients sum to
`2^16`, so a byte-valued input yields a byte-valued output). -/
def lum (channels : List Nat) : Nat :=
  (19595 * channels.getD 0 0 + 38470 * channels.getD 1 0 +
      7471 * channels.getD 2 0 + 32768) / 65536

/-- `image.convert('L')` on a multi-band image: reduce every pixel to
one luminance sample. -/
def convertL (image : PILImage) : Grid :=
  image.pixels.map (fun row => row.map lum)

/-- The grid view of an image that is already in mode `L` (each pixel
holds a single sample). -/
def toGrid (image : PILImage) : Grid :=
  image.pixels.map (fun row => row.map (fun channels => channels.headD 0))

/-- `np.array(image, dtype=np.float32)` on the resized single-band
image: cast every byte sample to floating point. -/
def toFloatArray (g : Grid) : List (List ℚ) :=
  g.map (fun row => row.map (fun v : Nat => (v : ℚ)))

/-- `image_array / 255.0`: rescale every sample. -/
def normalize255 (a : List (List ℚ)) : List (List ℚ) :=
  a.map (fun row => row.map (fun v => v / 255))

/-- `np.expand_dims(image_array, axis=0)`: prepend a batch axis of
size 1. -/
def expandDims (a : List (List ℚ)) : Tensor := [a]

/-- `ImageProcessor.preprocess_image` (`image_processor.py` lines
77-96): convert to single-band luminance unless already mode `L`,
resize (LANCZOS) to the configured target size, cast to float, divide
by 255.0, and prepend the batch dimension — in that order.  The
resampler is the external parameter `resize`. -/
def preprocess_image (resize : Grid → Int × Int → Grid) (st : Settings)
    (image : PILImage) : Tensor :=
  let gray : Grid := if image.mode ≠ "L" then convertL image else toGrid image
  let target_size := st.get_model_input_size
  let resized := resize gray target_size
  expandDims (normalize255 (toFloatArray resized))

/-! ## Prediction -/

/-- `np.argmax` on a one-dimensional array: index of the first
occurrence of the maximum (a later element replaces the running best
only when strictly greater).  `none` models the `ValueError` numpy
raises on an empty array. -/
def argmaxAux : List ℚ → Nat → Nat → ℚ → Nat
  | [], _, best, _ => best
  | x :: xs, i, best, bestv =>
    if bestv < x then argmaxAux xs (i + 1) i x else argmaxAux xs (i + 1) best bestv

/-- First-maximum argmax over a list, `none` on the empty list. -/
def npargmax : List ℚ → Option Nat
  | [] => none
  | x :: xs => some (argmaxAux xs 1 0 x)

/-- `np.max` on a nonempty one-dimensional array (the empty case is
never reached: `npargmax` fails first, as in the source where
`np.argmax` raises before `np.max` would). -/
def npmax : List ℚ → ℚ
  | [] => 0
  | x :: xs => xs.foldl max x

/-- The fixed positional class-label contract of
`ImageProcessor.predict`. -/
def class_labels : List String := ["Benign Case", "Malignant Case", "Normal Case"]

/-- The `probabilities` dictionary built by `predict`, with its fixed
key set. -/
structure Probs where
  benign : ℚ
  malignant : ℚ
  normal : ℚ
deriving Repr, DecidableEq

/-- Sum of the three entries of the probabilities dictionary. -/
def Probs.sum (p : Probs) : ℚ := p.benign + p.malignant + p.normal

/-- `PredictionResult` (`app/schemas/prediction.py`): label, confidence,
probabilities, elapsed inference time. -/
structure PredictionResult where
  prediction : String
  confidence : ℚ
  probabilities : Probs
  processing_time_ms : ℚ
deriving Repr, DecidableEq

/-- `ImageProcessor.predict` (`image_processor.py` lines 98-140).
Raises `RuntimeError("Model not loaded")` when `model_loaded` is false,
before the model handle is ever consulted; otherwise runs the forward
pass, takes the first batch row, computes the first-maximum argmax and
the maximum value, maps the index through `class_labels`, and builds
the probabilities dictionary from positions 0, 1, 2 of the row.
`elapsed` stands for the wall-clock time measurement.  Out-of-range
indexing surfaces as `IndexError` and an empty row as numpy's
`ValueError`, exactly as in Python. -/
def predict (s : ImageProcessorState) (elapsed : ℚ) (preprocessed_image : Tensor) :
    Except PyError PredictionResult :=
  if ¬ s.model_loaded then
    .error (.runtimeError "Model not loaded")
  else
    match s.model with
    | none => .error (.attributeError "NoneType object has no attribute predict")
    | some model =>
      match model preprocessed_image with
      | [] => .error (.indexError "index 0 is out of bounds for axis 0 with size 0")
      | class_probs :: _ =>
        match npargmax class_probs with
        | none => .error (.valueError "attempt to get argmax of an empty sequence")
        | some predicted_class_idx =>
          let confidence := npmax class_probs
          match class_labels.get? predicted_class_idx with
          | none => .error (.indexError "list index out of range")
          | some prediction_class =>
            match class_probs.get? 0, class_probs.get? 1, class_probs.get? 2 with
            | some p0, some p1, some p2 =>
              .ok { prediction := prediction_class
                    confidence := confidence
                    probabilities := { benign := p0, malignant := p1, normal := p2 }
                    processing_time_ms := elapsed }
            | _, _, _ => .error (.indexError "index out of bounds")

/-! ## Pipeline orchestration -/

/-- The success payload assembled by `process_image` (the shape of
`PredictionResponse` in `app/schemas/prediction.py`). -/
structure SuccessResponse where
  status : String
  filename : String
  image_info : ImageInfo
  image_stats : ImageStats
  prediction_result : PredictionResult
  message : String
  timestamp : String
deriving Repr, DecidableEq

/-- `ImageProcessor.process_image` (`image_processor.py` lines 142-182):
validate declared type and size (raising `ValueError("Invalid image
file")` on failure), decode the bytes (Pillow raises
`UnidentifiedImageError` — an `OSError`, not a `ValueError` — when they
do not parse as a supported container), extract info and stats from the
full-resolution array, preprocess, predict, and assemble the response.
Constructing the pydantic `PredictionResult` re-checks `0 ≤ confidence
≤ 1` and raises a `ValidationError` otherwise.  Every exception
propagates unchanged (the `except` clause only logs and re-raises).
`ts` stands for `datetime.utcnow().isoformat()`. -/
def process_image (ext : Ext) (st : Settings) (s : ImageProcessorState)
    (elapsed : ℚ) (ts : String)
    (image_data : List Nat) (filename : String) (content_type : String) :
    Except PyError SuccessResponse :=
  let file_size := image_data.length
  if ¬ validate_image st content_type file_size then
    .error (.valueError "Invalid image file")
  else
    match ext.decode image_data with
    | none => .error (.unidentifiedImageError "cannot identify image file")
    | some image =>
      let image_info := extract_image_info image
      let image_stats := calculate_image_stats ext (np_array image) (some file_size)
      let preprocessed_image := preprocess_image ext.resize st image
      match predict s elapsed preprocessed_image with
      | .error e => .error e
      | .ok prediction_result =>
        if prediction_result.confidence < 0 ∨ 1 < prediction_result.confidence then
          .error (.validationError "confidence out of range")
        else
          .ok { status := "success"
                filename := filename
                image_info := image_info
                image_stats := image_stats
                prediction_result := prediction_result
                message := "Image processed successfully"
                timestamp := ts }

/-! ## The `/predict` endpoint -/

/-- The HTTP-visible outcome of the `/predict` handler: either the
success payload or an `HTTPException` with a status code and detail. -/
inductive HTTPOutcome where
  | ok (resp : SuccessResponse)
  | httpError (status : Nat) (detail : String)
deriving Repr, DecidableEq

/-- The body of the handler's `try:` block: the empty-payload guard
(which raises `HTTPException(400, "Empty file provided")` *inside* the
`try`) followed by the call to `process_image`. -/
def predict_image_try (ext : Ext) (st : Settings) (s : ImageProcessorState)
    (elapsed : ℚ) (ts : String)
    (filename : String) (content_type : String) (image_data : List Nat) :
    Except PyError SuccessResponse :=
  if image_data = [] then
    .error (.httpException 400 "Empty file provided")
  else
    process_image ext st s elapsed ts image_data filename content_type

/-- The `/predict` handler `predict_image` (`endpoints.py` lines
62-132).  Missing filename or content type are rejected with 400 before
the `try:` block.  The `except` chain then maps `ValueError` to 400,
`RuntimeError` to 503, and **every other** exception — including the
`HTTPException` raised by the empty-file guard and Pillow's
`UnidentifiedImageError` — to 500, because both are subclasses of
`Exception` but of neither `ValueError` nor `RuntimeError`. -/
def predict_image (ext : Ext) (st : Settings) (s : ImageProcessorState)
    (elapsed : ℚ) (ts : String)
    (filename : String) (content_type : String) (image_data : List Nat) :
    HTTPOutcome :=
  if filename = "" then
    .httpError 400 "No file provided"
  else if content_type = "" then
    .httpError 400 "Unable to determine file type"
  else
    match predict_image_try ext st s elapsed ts filename content_type image_data with
    | .ok resp => .ok resp
    | .error (.valueError msg) =>
      .httpError 400 ("Invalid image file: " ++ msg)
    | .error (.runtimeError msg) =>
      .httpError 503 ("Model service unavailable: " ++ msg)
    | .error _ =>
      .httpError 500 "Internal server error during image processing"

/-! ## State-threaded method views

Python methods receive the instance `self`; a faithful stateful
embedding threads the `ImageProcessorState` through every call and
returns it alongside the value.  None of the pipeline method bodies
contains an assignment to a `self.` attribute (`self.model` and
`self.model_loaded` are written only inside `_load_model`, called from
`__init__`), which the translations below make explicit. -/

/-- `validate_image` as a method: reads no instance attribute, writes
none. -/
def validate_imageS (st : Settings) (s : ImageProcessorState)
    (content_type : String) (file_size : Nat) : Bool × ImageProcessorState :=
  (validate_image st content_type file_size, s)

/-- `preprocess_image` as a method: reads only the global settings,
writes no instance attribute. -/
def preprocess_imageS (resize : Grid → Int × Int → Grid) (st : Settings)
    (s : ImageProcessorState) (image : PILImage) : Tensor × ImageProcessorState :=
  (preprocess_image resize st image, s)

/-- `predict` as a method: reads `self.model_loaded` and `self.model`,
writes neither. -/
def predictS (s : ImageProcessorState) (elapsed : ℚ) (preprocessed_image : Tensor) :
    (Except PyError PredictionResult) × ImageProcessorState :=
  (predict s elapsed preprocessed_image, s)

/-- `process_image` as a method: the pipeline body with the instance
state threaded through each sub-call (`validate_image`,
`preprocess_image`, `predict`); the body itself assigns no `self.`
attribute. -/
def process_imageS (ext : Ext) (st : Settings) (s : ImageProcessorState)
    (elapsed : ℚ) (ts : String)
    (image_data : List Nat) (filename : String) (content_type : String) :
    (Except PyError SuccessResponse) × ImageProcessorState :=
  let file_size := image_data.length
  let (valid, s1) := validate_imageS st s content_type file_size
  if ¬ valid then
    (.error (.valueError "Invalid image file"), s1)
  else
    match ext.decode image_data with
    | none => (.error (.unidentifiedImageError "cannot identify image file"), s1)
    | some image =>
      let image_info := extract_image_info image
      let image_stats := calculate_image_stats ext (np_array image) (some file_size)
      let (preprocessed_image, s2) := preprocess_imageS ext.resize st s1 image
      match predictS s2 elapsed preprocessed_image with
      | (.error e, s3) => (.error e, s3)
      | (.ok prediction_result, s3) =>
        if prediction_result.confidence < 0 ∨ 1 < prediction_result.confidence then
          (.error (.validationError "confidence out of range"), s3)
        else
          (.ok { status := "success"
                 filename := filename
                 image_info := image_info
                 image_stats := image_stats
                 prediction_result := prediction_result
                 message := "Image processed successfully"
                 timestamp := ts }, s3)

/-! ## Concrete instances for witnesses and counterexamples -/

/-- A concrete resampler satisfying Pillow's resize contract: it
returns a grid of exactly the requested target size (all-zero
samples). -/
def rz0 : Grid → Int × Int → Grid :=
  fun _ t => List.replicate t.2.toNat (List.replicate t.1.toNat 0)

/-- External collaborators for runs whose bytes do not parse as a
supported image container: the decoder rejects every payload. -/
def extFail : Ext :=
  { decode := fun _ => none
    resize := rz0
    npMean := fun _ => 0
    npStd := fun _ => 0 }

/-- A concrete decoded 1×1 single-band image. -/
def img1 : PILImage :=
  { mode := "L", width := 1, height := 1, bands := ["L"],
    format := some "JPEG", pixels := [[[7]]] }

/-- External collaborators for runs whose bytes decode to `img1`. -/
def extOk : Ext :=
  { decode := fun _ => some img1
    resize := rz0
    npMean := fun _ => 0
    npStd := fun _ => 0 }

/-- A processor state whose model loaded and always emits the
probability row `[0.7, 0.2, 0.1]` (the synthetic stub of the spec). -/
def sLoaded : ImageProcessorState :=
  { model := some (fun _ => [[7/10, 2/10, 1/10]]), model_loaded := true }

/-- A processor state whose model never loaded. -/
def sNotLoaded : ImageProcessorState :=
  { model := none, model_loaded := false }

/-- The byte payload of the ASCII text `hello` — non-empty, within the
size limit, and not a supported image container. -/
def helloBytes : List Nat := [104, 101, 108, 108, 111]

/-- First-occurrence argmax, stated as a property: `i` is in range,
no element exceeds the one at `i`, and every earlier element is
strictly smaller (numpy's tie-breaking). -/
def isFirstArgmax (l : List ℚ) (i : Nat) : Prop :=
  i < l.length ∧ (∀ j, j < l.length → l.getD j 0 ≤ l.getD i 0) ∧
    ∀ j, j < i → l.getD j 0 < l.getD i 0

/-- The contract of Pillow's `Image.resize` on a mode-`L` image, as the
pipeline relies on it: the result has exactly the requested target
dimensions and byte-valued samples. -/
def ResizeContract (resize : Grid → Int × Int → Grid) : Prop :=
  ∀ (g : Grid) (w h : Int),
    (resize g (w, h)).length = h.toNat ∧
    ∀ row ∈ resize g (w, h), row.length = w.toNat ∧ ∀ v ∈ row, v ≤ 255

/-- A settings instance agreeing with the defaults on the model input
size but differing elsewhere. -/
def settingsAltMax : Settings := { defaultSettings with MAX_FILE_SIZE := 1 }

/-! ## Shared lemmas -/

/-- `validate_image` returns `false` exactly on an empty declared type,
a type outside the parsed allow-list, or a size strictly above the
maximum. -/
theorem validate_image_false_iff (st : Settings) (c : String) (n : Nat) :
    validate_image st c n = false ↔
      c = "" ∨ c ∉ st.get_allowed_image_types ∨ st.MAX_FILE_SIZE < n := by
  unfold validate_image
  split_ifs with h1 h2
  · simp only [true_iff]
    tauto
  · simp only [true_iff]
    tauto
  · simp only [Bool.true_eq_false, false_iff]
    push_neg at h1 h2 ⊢
    exact ⟨h1.1, h1.2, h2⟩

/-- `validate_image` returns `true` exactly when none of the rejection
conditions holds. -/
theorem validate_image_true_iff (st : Settings) (c : String) (n : Nat) :
    validate_image st c n = true ↔
      ¬ (c = "" ∨ c ∉ st.get_allowed_image_types ∨ st.MAX_FILE_SIZE < n) := by
  rw [← validate_image_false_iff]
  cases h : validate_image st c n <;> simp

/-! ## Claims -/

/-- C2: for every declared content type string `c` and byte size `n`,
`validate(c, n)` returns `false` exactly when `c` is empty or not a
member of the configured allow-list or `n` exceeds the configured
maximum, and returns `true` in all other cases; the default allow-list
parses to the four MIME strings and the default maximum is
52428800 bytes (50 MiB).  (An absent content type never reaches
`validate_image`: the endpoint rejects it beforehand.) -/
theorem C2_validate_image_characterization :
    (∀ (st : Settings) (c : String) (n : Nat),
      (validate_image st c n = false ↔
        c = "" ∨ c ∉ st.get_allowed_image_types ∨ st.MAX_FILE_SIZE < n) ∧
      (validate_image st c n = true ↔
        ¬ (c = "" ∨ c ∉ st.get_allowed_image_types ∨ st.MAX_FILE_SIZE < n))) ∧
    defaultSettings.get_allowed_image_types =
      ["image/jpeg", "image/png", "image/tiff", "image/bmp"] ∧
    defaultSettings.MAX_FILE_SIZE = 52428800 :=
  ⟨fun st c n => ⟨validate_image_false_iff st c n, validate_image_true_iff st c n⟩,
   by decide, by decide⟩

/-- C9: for every allow-listed declared content type, `validate_image`
accepts a byte size exactly equal to the configured maximum
(52428800 bytes) and rejects on size exactly when the size is strictly
greater than the maximum. -/
theorem C9_size_boundary (ct : String)
    (h : ct ∈ defaultSettings.get_allowed_image_types) :
    defaultSettings.MAX_FILE_SIZE = 52428800 ∧
    validate_image defaultSettings ct defaultSettings.MAX_FILE_SIZE = true ∧
    ∀ n : Nat, validate_image defaultSettings ct n = false ↔
      defaultSettings.MAX_FILE_SIZE < n := by
  have hne : ct ≠ "" := by
    have hlist : defaultSettings.get_allowed_image_types =
        ["image/jpeg", "image/png", "image/tiff", "image/bmp"] := by decide
    rw [hlist] at h
    rintro rfl
    simp at h
  have hch : ∀ n : Nat, validate_image defaultSettings ct n = false ↔
      defaultSettings.MAX_FILE_SIZE < n := by
    intro n
    rw [validate_image_false_iff]
    constructor
    · rintro (h1 | h2 | h3)
      · exact absurd h1 hne
      · exact absurd h h2
      · exact h3
    · intro h3
      exact Or.inr (Or.inr h3)
  refine ⟨by decide, ?_, hch⟩
  cases hv : validate_image defaultSettings ct defaultSettings.MAX_FILE_SIZE with
  | false => exact absurd ((hch _).1 hv) (lt_irrefl _)
  | true => rfl

/-- C9 witness: the boundary facts instantiated at the concrete content
type `image/png`, the exact maximum 52428800 and the first oversized
value 52428801. -/
theorem C9_size_boundary_witness :
    "image/png" ∈ defaultSettings.get_allowed_image_types ∧
    validate_image defaultSettings "image/png" 52428800 = true ∧
    (validate_image defaultSettings "image/png" 52428801 = false ↔ 52428800 < 52428801) :=
  ⟨by decide, (C9_size_boundary "image/png" (by decide)).2.1,
   (C9_size_boundary "image/png" (by decide)).2.2 52428801⟩

/-- C1 counterexample: the payload `hello` declared as `image/jpeg` is
non-empty, allow-listed, within the size limit and undecodable, yet the
handler answers 500 (the `UnexpectedFailure` mapping) instead of 400:
Pillow's `UnidentifiedImageError` is an `OSError`, so it falls through
`except ValueError` to the generic `except Exception` clause. -/
theorem C1_decode_failure_counterexample :
    helloBytes ≠ ([] : List Nat) ∧
    "image/jpeg" ∈ defaultSettings.get_allowed_image_types ∧
    helloBytes.length ≤ defaultSettings.MAX_FILE_SIZE ∧
    extFail.decode helloBytes = none ∧
    predict_image extFail defaultSettings sLoaded 0 "t" "scan.jpg" "image/jpeg" helloBytes
      = .httpError 500 "Internal server error during image processing" :=
  ⟨by decide, by decide, by decide, rfl, rfl⟩

/-- C1 amended: for every byte payload that is non-empty, has an
allow-listed declared content type, fits the size limit, but does not
parse as a supported image container, the handler fails with the
UnexpectedFailure kind (HTTP 500), not with InvalidInput (HTTP 400):
the decode error is an `OSError`, which the endpoint's `except`
chain does not map to 400. -/
theorem C1_decode_failure_maps_to_500
    (ext : Ext) (st : Settings) (s : ImageProcessorState) (elapsed : ℚ)
    (ts fn ct : String) (data : List Nat)
    (hfn : fn ≠ "") (hne : data ≠ [])
    (hval : validate_image st ct data.length = true)
    (hdec : ext.decode data = none) :
    predict_image ext st s elapsed ts fn ct data =
      .httpError 500 "Internal server error during image processing" := by
  have hct : ct ≠ "" := by
    intro hc
    exact ((validate_image_true_iff st ct data.length).1 hval) (Or.inl hc)
  simp [predict_image, predict_image_try, process_image, hfn, hct, hne, hval, hdec]

/-- C1 witness: the amended statement applied to the concrete `hello`
payload. -/
theorem C1_decode_failure_maps_to_500_witness :
    "scan.jpg" ≠ "" ∧ helloBytes ≠ ([] : List Nat) ∧
    validate_image defaultSettings "image/jpeg" helloBytes.length = true ∧
    extFail.decode helloBytes = none ∧
    predict_image extFail defaultSettings sNotLoaded 0 "t" "scan.jpg" "image/jpeg" helloBytes
      = .httpError 500 "Internal server error during image processing" :=
  ⟨by decide, by decide, by decide, rfl,
   C1_decode_failure_maps_to_500 extFail defaultSettings sNotLoaded 0 "t" "scan.jpg"
     "image/jpeg" helloBytes (by decide) (by decide) (by decide) rfl⟩

/-- C5: for every input whose validation succeeds and whose bytes
decode to a valid image, if the model singleton reports not-loaded then
the pipeline raises `RuntimeError("Model not loaded")` — the
ModelUnavailable kind — which the handler maps to 503
(service-unavailable), distinct from the 400 InvalidInput mapping.  The
statement quantifies over the model handle `s.model` and holds for
every value of it, so no forward pass is consulted: the failure precedes
any inference attempt. -/
theorem C5_model_unavailable_503
    (ext : Ext) (st : Settings) (s : ImageProcessorState) (elapsed : ℚ)
    (ts fn ct : String) (data : List Nat) (img : PILImage)
    (hfn : fn ≠ "") (hne : data ≠ [])
    (hval : validate_image st ct data.length = true)
    (hdec : ext.decode data = some img)
    (hload : s.model_loaded = false) :
    process_image ext st s elapsed ts data fn ct =
      .error (.runtimeError "Model not loaded") ∧
    predict_image ext st s elapsed ts fn ct data =
      .httpError 503 ("Model service unavailable: " ++ "Model not loaded") := by
  have hct : ct ≠ "" := by
    intro hc
    exact ((validate_image_true_iff st ct data.length).1 hval) (Or.inl hc)
  have hproc : process_image ext st s elapsed ts data fn ct =
      .error (.runtimeError "Model not loaded") := by
    simp [process_image, predict, hval, hdec, hload]
  refine ⟨hproc, ?_⟩
  simp [predict_image, predict_image_try, hfn, hct, hne, hproc]

/-- C5 witness: a 3-byte payload declared `image/jpeg` decoding to the
concrete image `img1`, processed with the never-loaded state. -/
theorem C5_model_unavailable_503_witness :
    "scan.jpg" ≠ "" ∧ [1, 2, 3] ≠ ([] : List Nat) ∧
    validate_image defaultSettings "image/jpeg" ([1, 2, 3] : List Nat).length = true ∧
    extOk.decode [1, 2, 3] = some img1 ∧
    sNotLoaded.model_loaded = false ∧
    (process_image extOk defaultSettings sNotLoaded 0 "t" [1, 2, 3] "scan.jpg" "image/jpeg" =
        .error (.runtimeError "Model not loaded") ∧
      predict_image extOk defaultSettings sNotLoaded 0 "t" "scan.jpg" "image/jpeg" [1, 2, 3] =
        .httpError 503 ("Model service unavailable: " ++ "Model not loaded")) :=
  ⟨by decide, by decide, by decide, rfl, rfl,
   C5_model_unavailable_503 extOk defaultSettings sNotLoaded 0 "t" "scan.jpg" "image/jpeg"
     [1, 2, 3] img1 (by decide) (by decide) (by decide) rfl rfl⟩

/-- C6: the empty-payload guard does exist as a separate ingress check
before content-type/size validation (second and fourth conjuncts: the
guard raises `HTTPException(400, "Empty file provided")` even when the
declared type is not allow-listed, so validation never runs), but the
guard sits *inside* the handler's `try:` block and `HTTPException` is a
subclass of `Exception`, so the generic `except Exception` clause
swallows it and answers 500 — contradicting the repository's own test
`test_prediction_empty_file`, which asserts status 400.  The claim
(empty payload ⇒ InvalidInput/400) states the intended behaviour; the
code returns 500. -/
theorem C6_empty_payload_evaluates_to_500 :
    predict_image extFail defaultSettings sNotLoaded 0 "t" "empty.jpg" "image/jpeg" [] =
      .httpError 500 "Internal server error during image processing" ∧
    predict_image_try extFail defaultSettings sNotLoaded 0 "t" "empty.jpg" "image/jpeg" [] =
      .error (.httpException 400 "Empty file provided") ∧
    predict_image extFail defaultSettings sNotLoaded 0 "t" "f.txt" "text/plain" [] =
      .httpError 500 "Internal server error during image processing" ∧
    predict_image_try extFail defaultSettings sNotLoaded 0 "t" "f.txt" "text/plain" [] =
      .error (.httpException 400 "Empty file provided") :=
  ⟨rfl, rfl, rfl, rfl⟩

/-- `npargmax` on a three-element list, in closed form. -/
theorem npargmax3 (p0 p1 p2 : ℚ) :
    npargmax [p0, p1, p2] =
      some (if p0 < p1 then (if p1 < p2 then 2 else 1) else (if p0 < p2 then 2 else 0)) := by
  simp [npargmax, argmaxAux]

/-- `npmax` on a three-element list, in closed form. -/
theorem npmax3 (p0 p1 p2 : ℚ) : npmax [p0, p1, p2] = max (max p0 p1) p2 := by
  simp [npmax]

/-- `predict` on a loaded model that emits one batch row of three
probabilities: closed form of the returned record. -/
theorem predict_ok_of_three (s : ImageProcessorState) (f : Tensor → List (List ℚ))
    (elapsed : ℚ) (x : Tensor) (p0 p1 p2 : ℚ)
    (h1 : s.model_loaded = true) (h2 : s.model = some f) (h3 : f x = [[p0, p1, p2]]) :
    predict s elapsed x = .ok
      { prediction := class_labels.getD
          (if p0 < p1 then (if p1 < p2 then 2 else 1) else (if p0 < p2 then 2 else 0)) "",
        confidence := max (max p0 p1) p2,
        probabilities := { benign := p0, malignant := p1, normal := p2 },
        processing_time_ms := elapsed } := by
  simp [predict, h1, h2, h3, npargmax3, npmax3]
  split_ifs with ha hb hc <;> simp [class_labels]

/-- C3: for every model output row of three probabilities, the
predicted label is the one at the index of the first maximum in the
fixed order Benign/Malignant/Normal, the confidence is the value there;
in particular the stub row `[0.7, 0.2, 0.1]` yields prediction
`"Benign Case"` with confidence `0.7`. -/
theorem C3_argmax_prediction :
    (∀ (s : ImageProcessorState) (f : Tensor → List (List ℚ)) (elapsed : ℚ) (x : Tensor)
       (p0 p1 p2 : ℚ),
       s.model_loaded = true → s.model = some f → f x = [[p0, p1, p2]] →
       ∃ (i : Nat) (r : PredictionResult),
         predict s elapsed x = .ok r ∧
         isFirstArgmax [p0, p1, p2] i ∧
         r.prediction = class_labels.getD i "" ∧
         r.confidence = [p0, p1, p2].getD i 0) ∧
    ∀ elapsed : ℚ, ∀ x : Tensor,
      predict sLoaded elapsed x =
        .ok { prediction := "Benign Case", confidence := 7/10,
              probabilities := { benign := 7/10, malignant := 2/10, normal := 1/10 },
              processing_time_ms := elapsed } := by
  constructor
  · intro s f elapsed x p0 p1 p2 h1 h2 h3
    refine ⟨if p0 < p1 then (if p1 < p2 then 2 else 1) else (if p0 < p2 then 2 else 0),
      _, predict_ok_of_three s f elapsed x p0 p1 p2 h1 h2 h3, ?_, rfl, ?_⟩
    · split_ifs with ha hb hc <;>
        refine ⟨by norm_num, ?_, ?_⟩ <;>
        intro j hj <;>
        (try simp only [List.length_cons, List.length_nil] at hj) <;>
        interval_cases j <;>
        simp [List.getD] <;>
        linarith
    · split_ifs with ha hb hc
      · rw [List.getD]
        simp only [List.getElem?_cons_succ, List.getElem?_cons_zero]
        rw [max_eq_right ha.le, max_eq_right hb.le]
        rfl
      · rw [max_eq_right ha.le, max_eq_left (le_of_not_lt hb)]
        rfl
      · rw [max_eq_left (le_of_not_lt ha), max_eq_right hc.le]
        rfl
      · rw [max_eq_left (le_of_not_lt ha), max_eq_left (le_of_not_lt hc)]
        rfl
  · intro elapsed x
    have h := predict_ok_of_three sLoaded (fun _ => [[7/10, 2/10, 1/10]]) elapsed x
      (7/10) (2/10) (1/10) rfl rfl rfl
    rw [h]
    norm_num [class_labels]

/-- C3 witness: the general conjunct applied to the concrete stub state
`sLoaded`, whose model emits `[0.7, 0.2, 0.1]`. -/
theorem C3_argmax_prediction_witness :
    sLoaded.model_loaded = true ∧
    ∃ (i : Nat) (r : PredictionResult),
      predict sLoaded 0 [] = .ok r ∧
      isFirstArgmax [(7:ℚ)/10, 2/10, 1/10] i ∧
      r.prediction = class_labels.getD i "" ∧
      r.confidence = [(7:ℚ)/10, 2/10, 1/10].getD i 0 :=
  ⟨rfl, C3_argmax_prediction.1 sLoaded (fun _ => [[7/10, 2/10, 1/10]]) 0 []
    (7/10) (2/10) (1/10) rfl rfl rfl⟩

/-- The resampler stub satisfies Pillow's resize contract. -/
theorem rz0_contract : ResizeContract rz0 := by
  intro g w h
  refine ⟨by simp [rz0], ?_⟩
  intro row hrow
  rw [List.eq_of_mem_replicate hrow]
  refine ⟨by simp, ?_⟩
  intro v hv
  rw [List.eq_of_mem_replicate hv]
  norm_num

/-- Normalisation after the float cast, merged into one map layer. -/
theorem normalize_toFloat_map (g : Grid) :
    normalize255 (toFloatArray g) =
      g.map (fun row => row.map (fun b : ℕ => (b : ℚ) / 255)) := by
  simp [normalize255, toFloatArray, List.map_map, Function.comp]

/-- C4: preprocessing is exactly the composition luminance conversion →
resize to the configured target → float cast → division by 255 → batch
axis, and for a resampler honouring Pillow's contract the output tensor
has shape `[1, targetHeight, targetWidth]` with every value in
`[0, 1]`; the default target parses to `(224, 224)`. -/
theorem C4_preprocess_shape_range (resize : Grid → Int × Int → Grid)
    (hrz : ResizeContract resize) (st : Settings) (image : PILImage) :
    preprocess_image resize st image =
      expandDims (normalize255 (toFloatArray (resize
        (if image.mode ≠ "L" then convertL image else toGrid image)
        st.get_model_input_size))) ∧
    (preprocess_image resize st image).length = 1 ∧
    (∀ plane ∈ preprocess_image resize st image,
      plane.length = (st.get_model_input_size).2.toNat ∧
      ∀ row ∈ plane, row.length = (st.get_model_input_size).1.toNat ∧
        ∀ v ∈ row, 0 ≤ v ∧ v ≤ 1) ∧
    defaultSettings.get_model_input_size = (224, 224) := by
  refine ⟨rfl, rfl, ?_, by decide⟩
  intro plane hplane
  rcases hsz : st.get_model_input_size with ⟨w, h⟩
  have hplane' : plane = normalize255 (toFloatArray (resize
      (if image.mode ≠ "L" then convertL image else toGrid image) (w, h))) := by
    rw [← hsz]
    exact List.mem_singleton.1 hplane
  obtain ⟨hlen, hrows⟩ :=
    hrz (if image.mode ≠ "L" then convertL image else toGrid image) w h
  rw [hplane', normalize_toFloat_map]
  constructor
  · rw [List.length_map]
    exact hlen
  · intro row hrow
    obtain ⟨row0, hrow0, rfl⟩ := List.mem_map.1 hrow
    obtain ⟨hrlen, hvals⟩ := hrows row0 hrow0
    constructor
    · rw [List.length_map]
      exact hrlen
    · intro v hv
      obtain ⟨b, hb, rfl⟩ := List.mem_map.1 hv
      have hb255 : (b : ℚ) ≤ 255 := by exact_mod_cast hvals b hb
      refine ⟨div_nonneg (Nat.cast_nonneg b) (by norm_num), ?_⟩
      rw [div_le_one (by norm_num : (0:ℚ) < 255)]
      exact hb255

/-- C4 witness: the resampler stub honours the contract, and
preprocessing the concrete image `img1` yields a batch of one plane. -/
theorem C4_preprocess_shape_range_witness :
    ResizeContract rz0 ∧ (preprocess_image rz0 defaultSettings img1).length = 1 :=
  ⟨rz0_contract, (C4_preprocess_shape_range rz0 rz0_contract defaultSettings img1).2.1⟩

/-- C7: for every input that validates and decodes, processed with a
loaded model emitting a row of three probabilities each in `[0, 1]`
whose sum is within tolerance `eps` of 1, `process_image` succeeds with
a confidence in `[0, 1]` and a probabilities dictionary whose sum
equals the emitted sum exactly (no renormalization), hence is within
the same tolerance of 1. -/
theorem C7_valid_distribution
    (ext : Ext) (st : Settings) (s : ImageProcessorState) (f : Tensor → List (List ℚ))
    (elapsed eps : ℚ) (ts fn ct : String) (data : List Nat) (img : PILImage)
    (p0 p1 p2 : ℚ)
    (hval : validate_image st ct data.length = true)
    (hdec : ext.decode data = some img)
    (h1 : s.model_loaded = true) (h2 : s.model = some f)
    (h3 : f (preprocess_image ext.resize st img) = [[p0, p1, p2]])
    (hp0 : 0 ≤ p0) (hp0' : p0 ≤ 1) (hp1 : 0 ≤ p1) (hp1' : p1 ≤ 1)
    (hp2 : 0 ≤ p2) (hp2' : p2 ≤ 1)
    (hsum : |p0 + p1 + p2 - 1| ≤ eps) :
    ∃ resp : SuccessResponse,
      process_image ext st s elapsed ts data fn ct = .ok resp ∧
      0 ≤ resp.prediction_result.confidence ∧ resp.prediction_result.confidence ≤ 1 ∧
      resp.prediction_result.probabilities.sum = p0 + p1 + p2 ∧
      |resp.prediction_result.probabilities.sum - 1| ≤ eps := by
  have hpred := predict_ok_of_three s f elapsed (preprocess_image ext.resize st img)
    p0 p1 p2 h1 h2 h3
  have hconf0 : 0 ≤ max (max p0 p1) p2 :=
    le_trans hp0 (le_trans (le_max_left _ _) (le_max_left _ _))
  have hconf1 : max (max p0 p1) p2 ≤ 1 := max_le (max_le hp0' hp1') hp2'
  have hnotif : ¬ (max (max p0 p1) p2 < 0 ∨ 1 < max (max p0 p1) p2) := by
    push_neg
    exact ⟨not_lt.1 (not_lt.2 hconf0), hconf1⟩
  have hproc : process_image ext st s elapsed ts data fn ct = .ok
      { status := "success", filename := fn,
        image_info := extract_image_info img,
        image_stats := calculate_image_stats ext (np_array img) (some data.length),
        prediction_result :=
          { prediction := class_labels.getD
              (if p0 < p1 then (if p1 < p2 then 2 else 1) else (if p0 < p2 then 2 else 0)) "",
            confidence := max (max p0 p1) p2,
            probabilities := { benign := p0, malignant := p1, normal := p2 },
            processing_time_ms := elapsed },
        message := "Image processed successfully", timestamp := ts } := by
    simp [process_image, hval, hdec, hpred, hnotif]
    exact ⟨fun _ _ => hp2, ⟨hp0', hp1'⟩, hp2'⟩
  refine ⟨_, hproc, hconf0, hconf1, rfl, ?_⟩
  show |Probs.sum { benign := p0, malignant := p1, normal := p2 } - 1| ≤ eps
  rw [show Probs.sum { benign := p0, malignant := p1, normal := p2 } = p0 + p1 + p2 from rfl]
  exact hsum

/-- C7 witness: the concrete 3-byte payload decoding to `img1`,
processed with the stub model emitting `[0.7, 0.2, 0.1]` (which sums to
exactly 1, tolerance 0). -/
theorem C7_valid_distribution_witness :
    validate_image defaultSettings "image/jpeg" ([1, 2, 3] : List Nat).length = true ∧
    ∃ resp : SuccessResponse,
      process_image extOk defaultSettings sLoaded 0 "t" [1, 2, 3] "scan.jpg" "image/jpeg" =
        .ok resp ∧
      0 ≤ resp.prediction_result.confidence ∧ resp.prediction_result.confidence ≤ 1 ∧
      resp.prediction_result.probabilities.sum = 7/10 + 2/10 + 1/10 ∧
      |resp.prediction_result.probabilities.sum - 1| ≤ 0 :=
  ⟨by decide,
   C7_valid_distribution extOk defaultSettings sLoaded (fun _ => [[7/10, 2/10, 1/10]])
     0 0 "t" "scan.jpg" "image/jpeg" [1, 2, 3] img1 (7/10) (2/10) (1/10)
     (by decide) rfl rfl rfl rfl
     (by norm_num) (by norm_num) (by norm_num) (by norm_num) (by norm_num) (by norm_num)
     (by norm_num)⟩

/-- C8: preprocessing is deterministic — it is a function of the input
pixel grid and the configured target size alone, so two calls agreeing
on the parsed target size (whatever the rest of the settings or the
processor state) produce identical output tensors. -/
theorem C8_preprocess_deterministic (resize : Grid → Int × Int → Grid)
    (st1 st2 : Settings) (image : PILImage)
    (hsz : st1.get_model_input_size = st2.get_model_input_size) :
    preprocess_image resize st1 image = preprocess_image resize st2 image := by
  unfold preprocess_image
  rw [hsz]

/-- C8 witness: the default settings and a variant differing in the
size limit parse to the same target size and preprocess `img1`
identically. -/
theorem C8_preprocess_deterministic_witness :
    defaultSettings.get_model_input_size = settingsAltMax.get_model_input_size ∧
    preprocess_image rz0 defaultSettings img1 = preprocess_image rz0 settingsAltMax img1 :=
  ⟨rfl, C8_preprocess_deterministic rz0 defaultSettings settingsAltMax img1 rfl⟩

/-- C10: no pipeline operation mutates the processor state — the
state-threaded translations of `validate_image`, `preprocess_image`,
`predict` and `process_image` all return the instance state unchanged
on every input and on every (success or failure) path, and the two
attributes are set by `__init__`/`_load_model` alone. -/
theorem C10_no_state_mutation (ext : Ext) (st : Settings) (s : ImageProcessorState)
    (resize : Grid → Int × Int → Grid) (elapsed : ℚ) (ts fn ct : String)
    (n : Nat) (image : PILImage) (x : Tensor) (data : List Nat)
    (load_result : Option (Tensor → List (List ℚ))) :
    (validate_imageS st s ct n).2 = s ∧
    (preprocess_imageS resize st s image).2 = s ∧
    (predictS s elapsed x).2 = s ∧
    (process_imageS ext st s elapsed ts data fn ct).2 = s ∧
    (ImageProcessor.init load_result).model = load_result ∧
    (ImageProcessor.init load_result).model_loaded = load_result.isSome := by
  refine ⟨rfl, rfl, rfl, ?_, rfl, rfl⟩
  unfold process_imageS validate_imageS preprocess_imageS predictS
  dsimp only
  split
  · rfl
  · split
    · rfl
    · split
      · rename_i heq
        simp only [Prod.mk.injEq] at heq
        exact heq.2.symm
      · rename_i heq
        simp only [Prod.mk.injEq] at heq
        split <;> exact heq.2.symm

end LungAPI
